import Mathlib

/-!
# Verification of the EduMUSE podcast generation flow

Shallow embedding of `src/edumuse/src/edumuse/flows/podcast_flow.py`
(class `PodcastFlow`).  External collaborators (the OpenAI chat service,
the ElevenLabs speech service, `json.loads`, the filesystem, FFmpeg and
FFprobe, and the wall clock) are modelled as oracle parameters; the code
of `PodcastFlow` itself is translated function by function.

Python dictionaries, lists and JSON values are modelled by one inductive
type `PyVal`; fallible Python operations (`line['speaker']`, `len(x)`,
iteration) are `Except String` computations whose `error` constructor
models a raised exception.
-/

namespace EduMuse

/-- Model of a Python/JSON value as it occurs in this flow: the values
`json.loads` can produce and the dicts/lists the flow builds. -/
inductive PyVal where
  | str (s : String)
  | num (n : Int)
  | bool (b : Bool)
  | none
  | list (xs : List PyVal)
  | dict (fields : List (String × PyVal))

/-- Python subscript `v[k]` with a string key: succeeds only on a dict
that carries the key; raises `KeyError` / `TypeError` otherwise. -/
def pyGet (v : PyVal) (k : String) : Except String PyVal :=
  match v with
  | .dict fields =>
    match fields.lookup k with
    | some x => .ok x
    | Option.none => .error ("KeyError: " ++ k)
  | .list _ => .error "TypeError: list indices must be integers or slices, not str"
  | .str _ => .error "TypeError: string indices must be integers"
  | _ => .error "TypeError: object is not subscriptable"

/-- Python `len(v)`: defined on strings, lists and dicts, a `TypeError`
otherwise. -/
def pyLen (v : PyVal) : Except String Nat :=
  match v with
  | .str s => .ok s.length
  | .list xs => .ok xs.length
  | .dict fields => .ok fields.length
  | _ => .error "TypeError: object has no len()"

/-- Python iteration `for x in v`: lists yield elements, dicts yield
keys, strings yield one-character strings; other values raise. -/
def pyIter (v : PyVal) : Except String (List PyVal) :=
  match v with
  | .list xs => .ok xs
  | .dict fields => .ok (fields.map (fun kv => PyVal.str kv.1))
  | .str s => .ok (s.toList.map (fun c => PyVal.str c.toString))
  | _ => .error "TypeError: object is not iterable"

/-- Python `str(v)` as used inside f-strings.  Only the scalar cases are
ever exercised by the flow's records and by the theorems below; the
container cases are abbreviated placeholders. -/
def pyStrVal (v : PyVal) : String :=
  match v with
  | .str s => s
  | .num n => toString n
  | .bool true => "True"
  | .bool false => "False"
  | .none => "None"
  | .list _ => "<list>"
  | .dict _ => "<dict>"

/-- Strip characters satisfying `p` from both ends of a string,
Python's `str.strip` family. -/
def pyStripBy (p : Char → Bool) (s : String) : String :=
  String.mk (((s.toList.dropWhile p).reverse.dropWhile p).reverse)

/-- Python `s.strip()` (whitespace on both ends). -/
def pyStrip (s : String) : String := pyStripBy Char.isWhitespace s

/-- Python `s.strip(c)` for a single strip character. -/
def pyStripChar (s : String) (c : Char) : String := pyStripBy (· = c) s

/-- Whether the first list is a prefix of the second. -/
def listPrefixOf : List Char → List Char → Bool
  | [], _ => true
  | _ :: _, [] => false
  | a :: as, b :: bs => a == b && listPrefixOf as bs

/-- Python `s.startswith(pre)`. -/
def strStartsWith (s pre : String) : Bool := listPrefixOf pre.toList s.toList

/-- Python `s.endswith(suf)`. -/
def strEndsWith (s suf : String) : Bool :=
  listPrefixOf suf.toList.reverse s.toList.reverse

/-- Python `s[:n]` (slicing by code points). -/
def strTake (s : String) (n : Nat) : String := String.mk (s.toList.take n)

/-- Python `s[n:]`. -/
def strDrop (s : String) (n : Nat) : String := String.mk (s.toList.drop n)

/-- Python `s.lower()` (ASCII case folding, as exercised here). -/
def strLower (s : String) : String := String.mk (s.toList.map Char.toLower)

/-- Python `s.split('\n')`, accumulator form. -/
def splitNlGo : List Char → List Char → List String
  | [], acc => [String.mk acc.reverse]
  | c :: cs, acc =>
    if c = '\n' then String.mk acc.reverse :: splitNlGo cs []
    else splitNlGo cs (c :: acc)

/-- Python `s.split('\n')`: splitting on every newline, `[""]` for the
empty string. -/
def strSplitNl (s : String) : List String := splitNlGo s.toList []

/-- Python `s.replace(' ', '_')`. -/
def strUnderscore (s : String) : String :=
  String.mk (s.toList.map (fun c => if c = ' ' then '_' else c))

/-- Python `f"{i:03d}"`: decimal rendering zero-padded to width 3. -/
def pad3 (i : Nat) : String :=
  String.mk (List.replicate (3 - (toString i).length) '0') ++ toString i

/-- `big` contains `small` as a contiguous substring. -/
def containsStr (big small : String) : Prop :=
  ∃ p q, big = p ++ small ++ q

/-- Key lookup on a record produced by the flow (a `PyVal.dict`),
returning `Option` rather than raising: used to state which keys a
result record carries. -/
def recGet (r : PyVal) (k : String) : Option PyVal :=
  match r with
  | .dict fields => fields.lookup k
  | _ => Option.none

/-- `HOST_VOICE_ID` constant of `podcast_flow.py`. -/
def HOST_VOICE_ID : String := "JBFqnCBsd6RMkjVDRZzb"

/-- `GUEST_VOICE_ID` constant of `podcast_flow.py`. -/
def GUEST_VOICE_ID : String := "EXAVITQu4vr4xnSDxMaL"

/-- The fixed fallback dialogue of `PodcastFlow._generate_podcast_dialogue`
(lines 224-231): built locally, with no external call. -/
def fallbackDialogue (content topic : String) : PyVal :=
  .list [
    .dict [("speaker", .str "Host"),
           ("text", .str ("Welcome to this educational podcast about " ++ topic ++ ".")),
           ("voice_id", .str HOST_VOICE_ID)],
    .dict [("speaker", .str "Guest"),
           ("text", .str "Thank you for having me. I\x27m excited to discuss this topic."),
           ("voice_id", .str GUEST_VOICE_ID)],
    .dict [("speaker", .str "Host"),
           ("text", .str "Let\x27s start with the basics. Could you give our listeners an overview?"),
           ("voice_id", .str HOST_VOICE_ID)],
    .dict [("speaker", .str "Guest"),
           ("text", .str ("Certainly. " ++ strTake content 200 ++ "...")),
           ("voice_id", .str GUEST_VOICE_ID)],
    .dict [("speaker", .str "Host"),
           ("text", .str "That\x27s fascinating. What are some practical applications of this knowledge?"),
           ("voice_id", .str HOST_VOICE_ID)],
    .dict [("speaker", .str "Guest"),
           ("text", .str "There are several applications worth discussing..."),
           ("voice_id", .str GUEST_VOICE_ID)]]

/-- The code-fence post-processing of `_generate_podcast_dialogue`
(lines 210-214), applied to the already-stripped raw model output:
if it starts with a triple backtick, strip all leading/trailing
backticks and whitespace, then an optional leading `json` tag. -/
def stripFences (raw : String) : String :=
  if strStartsWith raw "```" then
    let r := pyStrip (pyStripChar raw (Char.ofNat 96))
    if strStartsWith (strLower r) "json" then pyStrip (strDrop r 4) else r
  else raw

/-- `PodcastFlow._generate_podcast_dialogue` (lines 167-231).
`chat` is the outcome of the chat-completion call at line 193, which sits
outside the `try` block: if it raises, the exception propagates out of
this function.  `jsonParse` models `json.loads`: `Option.none` means the
parse raised, triggering the fallback dialogue.  A parsed value still
passes through `len(parsed_list)` in the debug print at line 218, which
is inside the same `try`: a parsed value with no `len()` (a number,
boolean or null root) raises `TypeError` there and also triggers the
fallback; any other parsed value (of any shape, array or not) is
returned as-is. -/
def generate_podcast_dialogue (content topic : String)
    (chat : Except String String) (jsonParse : String → Option PyVal) :
    Except String PyVal :=
  match chat with
  | .error e => .error e
  | .ok text =>
    let raw := stripFences (pyStrip text)
    match jsonParse raw with
    | some v =>
      match pyLen v with
      | .ok _ => .ok v
      | .error _ => .ok (fallbackDialogue content topic)
    | Option.none => .ok (fallbackDialogue content topic)

/-- A caller-supplied source dict: only the `content` and `title` keys
are read (with `.get`), so only those are modelled. -/
structure Source where
  content : Option String
  title : Option String

/-- The caller-supplied context dict: only `topic` is read. -/
structure Context where
  topic : Option String

/-- The filesystem / external-process state touched by one run of
`_generate_audio`: the files currently existing inside the run's
temporary segment directory (basenames), whether that directory exists,
how many times FFmpeg has been invoked, and whether the final output
file has been written. -/
structure FS where
  tempFiles : List String
  tempDirExists : Bool
  ffmpegCalls : Nat
  outputCreated : Bool

/-- The external collaborators of one `process` call.  `titleChat` is a
function of the first 1000 characters of content (the text embedded in
the title-extraction prompt); `synth` gives the outcome of the
ElevenLabs call for the line at each position (bytes modelled as a list
of naturals); `probe` is the parsed FFprobe duration (`Option.none` for
any failure); `now` is `datetime.now().isoformat()`, `timestamp` the
`%Y%m%d_%H%M%S` rendering used in filenames. -/
structure Oracles where
  titleChat : String → Except String String
  dialogueChat : Except String String
  jsonParse : String → Option PyVal
  mkdirs : Except String Unit
  synth : Nat → Except String (List Nat)
  ffmpeg : Except String Unit
  probe : Option Int
  now : String
  timestamp : String

/-- Basename of the per-line temporary file `segment_{i:03d}.mp3`
(line 276). -/
def segFileName (i : Nat) : String := "segment_" ++ pad3 i ++ ".mp3"

/-- Basename of the FFmpeg manifest `file_list.txt` (line 296). -/
def manifestName : String := "file_list.txt"

/-- The output filename `podcast_<topic with spaces as underscores>_<ts>.mp3`
(line 238). -/
def outputFileName (topic ts : String) : String :=
  "podcast_" ++ strUnderscore topic ++ "_" ++ ts ++ ".mp3"

/-- The per-line synthesis loop of `_generate_audio` (lines 259-289),
threading the list of successful segment basenames (`segment_files`) and
the filesystem state.  Accessing `line['speaker']` or `line['text']` for
the progress print at line 261 happens outside the inner `try`, so a
failure there raises out of the loop (`.error`); everything inside the
inner `try` — the `voice_id` access, `len(line['text'])`, and the
synthesis call itself — merely skips the line on failure. -/
def synthLoop (synth : Nat → Except String (List Nat)) :
    List PyVal → Nat → List String → FS → Except String (List String) × FS
  | [], _, acc, fs => (.ok acc, fs)
  | line :: rest, i, acc, fs =>
    match pyGet line "speaker" with
    | .error e => (.error e, fs)
    | .ok _ =>
      match pyGet line "text" with
      | .error e => (.error e, fs)
      | .ok txt =>
        match pyGet line "voice_id" with
        | .error _ => synthLoop synth rest (i + 1) acc fs
        | .ok _ =>
          match pyLen txt with
          | .error _ => synthLoop synth rest (i + 1) acc fs
          | .ok _ =>
            match synth i with
            | .error _ => synthLoop synth rest (i + 1) acc fs
            | .ok _bytes =>
              synthLoop synth rest (i + 1) (acc ++ [segFileName i])
                { fs with tempFiles := fs.tempFiles ++ [segFileName i] }

/-- `PodcastFlow._generate_audio` (lines 233-339).  The `os.makedirs`
calls precede the `try` block, so their failure raises out of the
function (`.error`); every other failure is caught internally and turned
into the empty-string return value.  On FFmpeg success the per-segment
files, the manifest and the temporary directory are removed (lines
318-323); on `CalledProcessError` (line 327) and on the zero-segment
path (line 332) the function returns `""` without any cleanup. -/
def generateAudioStep (dialogue : PyVal) (topic : String) (o : Oracles) (fs : FS) :
    Except String (String × FS) :=
  match o.mkdirs with
  | .error e => .error e
  | .ok _ =>
    let fs1 : FS := { fs with tempDirExists := true, tempFiles := [] }
    match pyIter dialogue with
    | .error _ => .ok ("", fs1)
    | .ok lines =>
      match synthLoop o.synth lines 0 [] fs1 with
      | (.error _, fs2) => .ok ("", fs2)
      | (.ok segs, fs2) =>
        match segs with
        | [] => .ok ("", fs2)
        | _ :: _ =>
          let fs3 : FS := { fs2 with tempFiles := fs2.tempFiles ++ [manifestName] }
          let fs4 : FS := { fs3 with ffmpegCalls := fs3.ffmpegCalls + 1 }
          match o.ffmpeg with
          | .error _ => .ok ("", fs4)
          | .ok _ =>
            let fs5 : FS := { fs4 with outputCreated := true }
            let fs6 : FS := { fs5 with
              tempFiles := (segs.foldl List.erase fs5.tempFiles).erase manifestName }
            if fs6.tempFiles.isEmpty then
              .ok (outputFileName topic o.timestamp, { fs6 with tempDirExists := false })
            else
              .ok ("", fs6)

/-- One transcript line `**{speaker}**: {text}\n\n` (line 347), rendered
from the values the subscripts returned. -/
def renderLine (sp tx : PyVal) : String :=
  "**" ++ pyStrVal sp ++ "**: " ++ pyStrVal tx ++ "\n\n"

/-- Accumulator loop of `_format_dialogue_as_text` (lines 346-347): a
`KeyError`/`TypeError` on a line's subscripts propagates. -/
def formatGo : List PyVal → String → Except String String
  | [], acc => .ok acc
  | line :: rest, acc =>
    match pyGet line "speaker" with
    | .error e => .error e
    | .ok sp =>
      match pyGet line "text" with
      | .error e => .error e
      | .ok tx => formatGo rest (acc ++ renderLine sp tx)

/-- `PodcastFlow._format_dialogue_as_text` (lines 341-349). -/
def format_dialogue_as_text (dialogue : PyVal) : Except String String :=
  match pyIter dialogue with
  | .error e => .error e
  | .ok lines => formatGo lines "# Podcast Transcript\n\n"

/-- The title-candidate predicate of `_extract_title_from_content`
(line 145): trimmed length strictly between 3 and 100 and no terminal
punctuation. -/
def isTitleLine (s : String) : Bool :=
  decide (3 < s.length) && decide (s.length < 100) &&
    !(strEndsWith s "." || strEndsWith s ":" || strEndsWith s ";" ||
      strEndsWith s "," || strEndsWith s "?" || strEndsWith s "!")

/-- `PodcastFlow._extract_title_from_content` (lines 137-165): scan the
first 5 lines for a title-like trimmed line; otherwise ask the chat
service over the first 1000 characters of content, returning its trimmed
reply, or Python `None` if that call raises (the `try` at line 149). -/
def extract_title_from_content (content : String)
    (titleChat : String → Except String String) : Option String :=
  match ((strSplitNl content).take 5).map pyStrip |>.find? isTitleLine with
  | some line => some line
  | Option.none =>
    match titleChat (strTake content 1000) with
    | .ok resp => some (pyStrip resp)
    | .error _ => Option.none

/-- The source loop of `process` (lines 58-67): content is the ordered
concatenation of all `content` fields, with `""` for a missing key. -/
def concatContent (sources : List Source) : String :=
  sources.foldl (fun acc s => acc ++ s.content.getD "") ""

/-- The title part of the source loop (lines 64-67): the first source
whose `title` value is truthy (present and non-empty). -/
def firstSourceTitle (sources : List Source) : Option String :=
  sources.findSome? (fun s =>
    match s.title with
    | some t => if t = "" then Option.none else some t
    | Option.none => Option.none)

/-- The `document_title` resolution of `process` (lines 54-78): source
title, else extracted title if truthy, else `context.get('topic',
'Educational Topic')`. -/
def resolveTitle (sources : List Source) (content : String) (ctx : Context)
    (titleChat : String → Except String String) : String :=
  match firstSourceTitle sources with
  | some t => t
  | Option.none =>
    match extract_title_from_content content titleChat with
    | some t => if t = "" then ctx.topic.getD "Educational Topic" else t
    | Option.none => ctx.topic.getD "Educational Topic"

/-- `PodcastFlow._get_audio_duration` (lines 351-372): the probed
duration, with every failure degraded to `0.0`.  The floating-point
value is modelled as an integer-valued oracle; no claim depends on the
number itself. -/
def getAudioDuration (probe : Option Int) : Int := probe.getD 0

/-- Model of `traceback.format_exc()` for the exception message `e`: a
diagnostic trace string that carries the message. -/
def tracebackOf (e : String) : String :=
  "Traceback (most recent call last):\n" ++ e

/-- The audio-failure result record of `process` (lines 94-104). -/
def audioFailRecord (transcript : String) (nSegs : Nat) (now : String) : PyVal :=
  .dict [("flow_type", .str "podcast"),
         ("sources_found", .str transcript),
         ("error", .str "Failed to generate audio"),
         ("dialogue_segments", .num nSegs),
         ("metadata", .dict [("format", .str "mp3"),
                             ("voices_used", .list [.str HOST_VOICE_ID, .str GUEST_VOICE_ID]),
                             ("generated_at", .str now)])]

/-- The success result record of `process` (lines 109-120). -/
def successRecord (transcript audioPath : String) (nSegs : Nat)
    (duration : Int) (now : String) : PyVal :=
  .dict [("flow_type", .str "podcast"),
         ("sources_found", .str transcript),
         ("audio_output", .str audioPath),
         ("dialogue_segments", .num nSegs),
         ("metadata", .dict [("duration_seconds", .num duration),
                             ("format", .str "mp3"),
                             ("voices_used", .list [.str HOST_VOICE_ID, .str GUEST_VOICE_ID]),
                             ("generated_at", .str now)])]

/-- The catch-all error record of `process` (lines 127-135). -/
def catchAllRecord (e now : String) : PyVal :=
  .dict [("flow_type", .str "podcast"),
         ("error", .str ("Error in podcast generation: " ++ e)),
         ("sources_found", .str "Failed to generate podcast"),
         ("metadata", .dict [("error_details", .str (tracebackOf e)),
                             ("generated_at", .str now)])]

/-- The body of `PodcastFlow.process` inside its `try` block (lines
50-120): aggregate content and title, generate the dialogue, attempt
audio generation, and build the success- or audio-failure record.  An
`.error` outcome models an exception reaching the `except` at line 121;
the filesystem state at the moment of the raise is returned alongside. -/
def processBody (sources : List Source) (ctx : Context) (o : Oracles) (fs : FS) :
    Except String PyVal × FS :=
  let content := concatContent sources
  let _title := resolveTitle sources content ctx o.titleChat
  let topic := ctx.topic.getD "Educational Topic"
  match generate_podcast_dialogue content topic o.dialogueChat o.jsonParse with
  | .error e => (.error e, fs)
  | .ok dialogue =>
    match pyLen dialogue with
    | .error e => (.error e, fs)
    | .ok nSegs =>
      match generateAudioStep dialogue topic o fs with
      | .error e => (.error e, fs)
      | .ok (audioPath, fs1) =>
        if audioPath = "" then
          match format_dialogue_as_text dialogue with
          | .error e => (.error e, fs1)
          | .ok transcript => (.ok (audioFailRecord transcript nSegs o.now), fs1)
        else
          match format_dialogue_as_text dialogue with
          | .error e => (.error e, fs1)
          | .ok transcript =>
            (.ok (successRecord transcript audioPath nSegs (getAudioDuration o.probe) o.now), fs1)

/-- `PodcastFlow.process` (lines 47-135): the body wrapped in the
top-level `try`/`except` boundary.  A total function: every exception
from the body is converted into the catch-all error record. -/
def process (sources : List Source) (ctx : Context) (o : Oracles) (fs : FS) :
    PyVal × FS :=
  match processBody sources ctx o fs with
  | (.ok r, fs1) => (r, fs1)
  | (.error e, fs1) => (catchAllRecord e o.now, fs1)

/-- A dialogue line of the shape the flow expects: a dict carrying
string values under `speaker`, `text` and `voice_id`. -/
def isWfLine (l : PyVal) : Bool :=
  match pyGet l "speaker", pyGet l "text", pyGet l "voice_id" with
  | .ok (.str _), .ok (.str _), .ok (.str _) => true
  | _, _, _ => false

/-- The string value a well-formed line carries under key `k`. -/
def lineField (l : PyVal) (k : String) : String :=
  match pyGet l k with
  | .ok (.str s) => s
  | _ => ""

/-- The transcript rendering of one well-formed line. -/
def renderOf (l : PyVal) : String :=
  "**" ++ lineField l "speaker" ++ "**: " ++ lineField l "text" ++ "\n\n"

/-- The concatenated transcript renderings of a list of lines. -/
def concatRenders : List PyVal → String
  | [] => ""
  | l :: ls => renderOf l ++ concatRenders ls

/-- The full transcript `_format_dialogue_as_text` produces for a list
of well-formed lines. -/
def transcriptOf (lines : List PyVal) : String :=
  "# Podcast Transcript\n\n" ++ concatRenders lines

/-- Whether the synthesis call for the line at position `j` succeeds. -/
def synthOk (synth : Nat → Except String (List Nat)) (j : Nat) : Bool :=
  match synth j with
  | .ok _ => true
  | .error _ => false

/-- The ordered segment basenames produced for an `n`-line script:
positions whose synthesis call succeeds, in position order. -/
def segNames (synth : Nat → Except String (List Nat)) (n : Nat) : List String :=
  ((List.range n).filter (synthOk synth)).map segFileName

lemma wfLine_speaker {l : PyVal} (h : isWfLine l = true) :
    pyGet l "speaker" = .ok (.str (lineField l "speaker")) := by
  unfold isWfLine at h
  unfold lineField
  cases hs : pyGet l "speaker" with
  | error e => rw [hs] at h; exact absurd h (by simp)
  | ok v =>
    rw [hs] at h
    cases v <;> simp_all

lemma wfLine_text {l : PyVal} (h : isWfLine l = true) :
    pyGet l "text" = .ok (.str (lineField l "text")) := by
  unfold isWfLine at h
  unfold lineField
  cases hs : pyGet l "text" with
  | error e =>
    rw [hs] at h
    cases pyGet l "speaker" <;> simp_all
  | ok v =>
    rw [hs] at h
    cases hsp : pyGet l "speaker" <;> rw [hsp] at h <;> cases v <;> simp_all

lemma wfLine_voice {l : PyVal} (h : isWfLine l = true) :
    ∃ s, pyGet l "voice_id" = .ok (.str s) := by
  unfold isWfLine at h
  cases hs : pyGet l "voice_id" with
  | error e =>
    rw [hs] at h
    cases pyGet l "speaker" <;> cases pyGet l "text" <;> simp_all
  | ok v =>
    rw [hs] at h
    cases hsp : pyGet l "speaker" <;> rw [hsp] at h <;>
      cases htx : pyGet l "text" <;> rw [htx] at h <;> cases v <;> simp_all

/-- Characterization of the synthesis loop on well-formed lines: it
never raises, appends exactly the segment files of the positions whose
synthesis call succeeds, in position order, and writes those same files
to the temporary directory. -/
lemma synthLoop_wf (synth : Nat → Except String (List Nat)) :
    ∀ (ls : List PyVal) (i : Nat) (acc : List String) (fs : FS),
      (∀ l ∈ ls, isWfLine l = true) →
      synthLoop synth ls i acc fs =
        (.ok (acc ++ ((List.range' i ls.length).filter (synthOk synth)).map segFileName),
         { fs with tempFiles :=
            fs.tempFiles ++ ((List.range' i ls.length).filter (synthOk synth)).map segFileName }) := by
  intro ls
  induction ls with
  | nil => intro i acc fs _; simp [synthLoop, List.range']
  | cons l rest ih =>
    intro i acc fs hwf
    have hl : isWfLine l = true := hwf l (List.mem_cons_self l rest)
    have hrest : ∀ x ∈ rest, isWfLine x = true :=
      fun x hx => hwf x (List.mem_cons_of_mem l hx)
    obtain ⟨v, hv⟩ := wfLine_voice hl
    have hrange : List.range' i (l :: rest).length = i :: List.range' (i + 1) rest.length := by
      simp [List.range']
    cases hsyn : synth i with
    | error e =>
      have hok : synthOk synth i = false := by simp [synthOk, hsyn]
      rw [show synthLoop synth (l :: rest) i acc fs =
            synthLoop synth rest (i + 1) acc fs by
          simp [synthLoop, wfLine_speaker hl, wfLine_text hl, hv, pyLen, hsyn]]
      rw [ih (i + 1) acc fs hrest, hrange]
      simp [List.filter, hok]
    | ok bs =>
      have hok : synthOk synth i = true := by simp [synthOk, hsyn]
      rw [show synthLoop synth (l :: rest) i acc fs =
            synthLoop synth rest (i + 1) (acc ++ [segFileName i])
              { fs with tempFiles := fs.tempFiles ++ [segFileName i] } by
          simp [synthLoop, wfLine_speaker hl, wfLine_text hl, hv, pyLen, hsyn]]
      rw [ih (i + 1) (acc ++ [segFileName i])
            { fs with tempFiles := fs.tempFiles ++ [segFileName i] } hrest, hrange]
      simp [List.filter, hok, List.append_assoc]

/-- Characterization of the transcript accumulator on well-formed
lines. -/
lemma formatGo_wf :
    ∀ (ls : List PyVal) (acc : String),
      (∀ l ∈ ls, isWfLine l = true) →
      formatGo ls acc = .ok (acc ++ concatRenders ls) := by
  intro ls
  induction ls with
  | nil => intro acc _; simp [formatGo, concatRenders]
  | cons l rest ih =>
    intro acc hwf
    have hl : isWfLine l = true := hwf l (List.mem_cons_self l rest)
    have hrest : ∀ x ∈ rest, isWfLine x = true :=
      fun x hx => hwf x (List.mem_cons_of_mem l hx)
    rw [show formatGo (l :: rest) acc = formatGo rest (acc ++ renderOf l) by
          simp [formatGo, wfLine_speaker hl, wfLine_text hl, renderLine, renderOf, pyStrVal]]
    rw [ih (acc ++ renderOf l) hrest]
    simp [concatRenders, String.append_assoc]

/-- `_format_dialogue_as_text` on a list of well-formed lines returns
the full transcript. -/
lemma format_wf {lines : List PyVal} (hwf : ∀ l ∈ lines, isWfLine l = true) :
    format_dialogue_as_text (.list lines) = .ok (transcriptOf lines) := by
  simp [format_dialogue_as_text, pyIter, formatGo_wf lines _ hwf, transcriptOf]

/-- Every line's rendering occurs contiguously inside the concatenated
renderings, whatever prefix precedes them. -/
lemma contains_concatRenders :
    ∀ (ls : List PyVal) (l : PyVal) (acc : String), l ∈ ls →
      containsStr (acc ++ concatRenders ls) (renderOf l) := by
  intro ls
  induction ls with
  | nil => intro l acc h; exact absurd h (List.not_mem_nil l)
  | cons x rest ih =>
    intro l acc h
    rcases List.mem_cons.mp h with h | h
    · subst h
      exact ⟨acc, concatRenders rest, by simp [concatRenders, String.append_assoc]⟩
    · rcases ih l (acc ++ renderOf x) h with ⟨p, q, hpq⟩
      refine ⟨p, q, ?_⟩
      rw [← hpq]
      simp [concatRenders, String.append_assoc]

/-- Every line's rendering occurs inside the full transcript. -/
lemma contains_transcript {lines : List PyVal} {l : PyVal} (h : l ∈ lines) :
    containsStr (transcriptOf lines) (renderOf l) :=
  contains_concatRenders lines l "# Podcast Transcript\n\n" h

/-- Removing, in order, every element of a front segment of a list
removes exactly that segment: models the cleanup loop at lines 320-322,
which `os.remove`s each segment file in the order it was created. -/
lemma foldl_erase_front :
    ∀ (l extra : List String), List.foldl List.erase (l ++ extra) l = extra := by
  intro l
  induction l with
  | nil => intro extra; simp
  | cons x rest ih =>
    intro extra
    have h1 : ((x :: rest) ++ extra).erase x = rest ++ extra := by
      simp [List.erase_cons_head]
    simp only [List.foldl_cons, h1]
    exact ih extra

/-- Path characterization of `_generate_audio` on a well-formed script
list, given the directory creation succeeds: the zero-segments path
returns `""` leaving the (empty) temporary directory behind; the
FFmpeg-failure path returns `""` leaving every segment file, the
manifest and the directory behind; the success path removes all
temporary state and returns the output filename. -/
lemma generateAudio_wf (lines : List PyVal) (topic : String) (o : Oracles) (fs : FS)
    (hwf : ∀ l ∈ lines, isWfLine l = true) (hmk : o.mkdirs = .ok ()) :
    generateAudioStep (.list lines) topic o fs =
      if segNames o.synth lines.length = [] then
        .ok ("", ⟨[], true, fs.ffmpegCalls, fs.outputCreated⟩)
      else
        match o.ffmpeg with
        | .error _ => .ok ("", ⟨segNames o.synth lines.length ++ [manifestName], true,
                               fs.ffmpegCalls + 1, fs.outputCreated⟩)
        | .ok _ => .ok (outputFileName topic o.timestamp,
                        ⟨[], false, fs.ffmpegCalls + 1, true⟩) := by
  have hloop := synthLoop_wf o.synth lines 0 []
    ⟨[], true, fs.ffmpegCalls, fs.outputCreated⟩ hwf
  have hseg : ((List.range' 0 lines.length).filter (synthOk o.synth)).map segFileName =
      segNames o.synth lines.length := by
    rw [segNames, List.range_eq_range']
  rw [hseg] at hloop
  unfold generateAudioStep
  rw [hmk]
  simp only [pyIter]
  rw [show ({ fs with tempDirExists := true, tempFiles := [] } : FS) =
        ⟨[], true, fs.ffmpegCalls, fs.outputCreated⟩ from rfl]
  rw [hloop]
  simp only [List.nil_append]
  cases hn : segNames o.synth lines.length with
  | nil => simp
  | cons s ss =>
    simp only [if_neg (by simp : s :: ss ≠ [])]
    cases hff : o.ffmpeg with
    | error e => rfl
    | ok u =>
      have herase : List.foldl List.erase (ss ++ [manifestName]) ss = [manifestName] :=
        foldl_erase_front ss [manifestName]
      simp [herase]

/-- Every record the `try` body of `process` returns successfully is
either the audio-failure record or the success record, and both carry
the transcript of the generated dialogue under `sources_found`. -/
lemma processBody_ok_shape {sources : List Source} {ctx : Context} {o : Oracles}
    {fs : FS} {r : PyVal} {fs1 : FS}
    (h : processBody sources ctx o fs = (.ok r, fs1)) :
    ∃ d T n,
      generate_podcast_dialogue (concatContent sources) (ctx.topic.getD "Educational Topic")
        o.dialogueChat o.jsonParse = .ok d
      ∧ format_dialogue_as_text d = .ok T
      ∧ pyLen d = .ok n
      ∧ (r = audioFailRecord T n o.now ∨
         ∃ p, r = successRecord T p n (getAudioDuration o.probe) o.now) := by
  simp only [processBody] at h
  cases hd : generate_podcast_dialogue (concatContent sources)
      (ctx.topic.getD "Educational Topic") o.dialogueChat o.jsonParse with
  | error e => simp [hd] at h
  | ok d =>
    simp only [hd] at h
    cases hl : pyLen d with
    | error e => simp [hl] at h
    | ok n =>
      simp only [hl] at h
      cases hg : generateAudioStep d (ctx.topic.getD "Educational Topic") o fs with
      | error e => simp [hg] at h
      | ok pr =>
        obtain ⟨audioPath, fs2⟩ := pr
        simp only [hg] at h
        by_cases hap : audioPath = ""
        · rw [if_pos hap] at h
          cases hf : format_dialogue_as_text d with
          | error e => simp [hf] at h
          | ok T =>
            simp only [hf, Prod.mk.injEq, Except.ok.injEq] at h
            exact ⟨d, T, n, rfl, hf, hl, Or.inl h.1.symm⟩
        · rw [if_neg hap] at h
          cases hf : format_dialogue_as_text d with
          | error e => simp [hf] at h
          | ok T =>
            simp only [hf, Prod.mk.injEq, Except.ok.injEq] at h
            exact ⟨d, T, n, rfl, hf, hl, Or.inr ⟨audioPath, h.1.symm⟩⟩

/-- When the dialogue parses to a script list and every synthesis call
fails, the `try` body of `process` completes with the audio-failure
record and an empty leftover temporary directory, without invoking
FFmpeg. -/
lemma processBody_allFail {sources : List Source} {ctx : Context} {o : Oracles}
    {fs : FS} {raw : String} {lines : List PyVal}
    (hchat : o.dialogueChat = .ok raw)
    (hparse : o.jsonParse (stripFences (pyStrip raw)) = some (.list lines))
    (hwf : ∀ l ∈ lines, isWfLine l = true)
    (hfail : ∀ j, synthOk o.synth j = false)
    (hmk : o.mkdirs = .ok ()) :
    processBody sources ctx o fs =
      (.ok (audioFailRecord (transcriptOf lines) lines.length o.now),
       ⟨[], true, fs.ffmpegCalls, fs.outputCreated⟩) := by
  have hdlg : generate_podcast_dialogue (concatContent sources)
      (ctx.topic.getD "Educational Topic") o.dialogueChat o.jsonParse = .ok (.list lines) := by
    simp [generate_podcast_dialogue, hchat, hparse, pyLen]
  have hseg0 : segNames o.synth lines.length = [] := by
    simp only [segNames, List.map_eq_nil_iff, List.filter_eq_nil_iff]
    intro a _
    simp [hfail a]
  have hga := generateAudio_wf lines (ctx.topic.getD "Educational Topic") o fs hwf hmk
  rw [hseg0, if_pos rfl] at hga
  simp only [processBody, hdlg, pyLen, hga, format_wf hwf]
  simp

/-- A well-formed dialogue line dict, used as concrete input. -/
def mkLine (s t v : String) : PyVal :=
  .dict [("speaker", .str s), ("text", .str t), ("voice_id", .str v)]

/-- A concrete oracle assignment on which every external collaborator
behaves: used to instantiate theorems at concrete inputs. -/
def baseOracles : Oracles :=
  ⟨fun _ => Except.error "no title",
   Except.ok "not json at all",
   fun _ => Option.none,
   Except.ok (),
   fun _ => Except.ok [1, 2],
   Except.ok (),
   Option.none,
   "NOW",
   "TS"⟩

/-- The initial filesystem state of a run. -/
def fsInit : FS := ⟨[], false, 0, false⟩

/-- C5: the fallback script is a fixed 6-line dialogue, alternating Host
and Guest starting with Host, with the welcome line naming the topic,
the fourth line echoing the first 200 characters of content, and the
configured voice ids alternating likewise.  `fallbackDialogue` is a
closed term: it is produced with zero external calls. -/
theorem C5_fallback_structure (content topic : String) :
    pyLen (fallbackDialogue content topic) = .ok 6
    ∧ (∃ ls, pyIter (fallbackDialogue content topic) = .ok ls
        ∧ ls.map (fun l => lineField l "speaker") =
            ["Host", "Guest", "Host", "Guest", "Host", "Guest"]
        ∧ ls.map (fun l => lineField l "voice_id") =
            [HOST_VOICE_ID, GUEST_VOICE_ID, HOST_VOICE_ID,
             GUEST_VOICE_ID, HOST_VOICE_ID, GUEST_VOICE_ID]
        ∧ ls.map (fun l => lineField l "text") =
            ["Welcome to this educational podcast about " ++ topic ++ ".",
             "Thank you for having me. I\x27m excited to discuss this topic.",
             "Let\x27s start with the basics. Could you give our listeners an overview?",
             "Certainly. " ++ strTake content 200 ++ "...",
             "That\x27s fascinating. What are some practical applications of this knowledge?",
             "There are several applications worth discussing..."]) :=
  ⟨rfl, ⟨_, rfl, rfl, rfl, rfl⟩⟩

/-- C2 (amended): when the chat call returns text that fails to parse
as JSON, `_generate_podcast_dialogue` returns the 6-line fallback
script; but when the chat call itself raises, the exception propagates
out of the function, and is converted to the catch-all error record
only at the `process` boundary. -/
theorem C2_writeScript_fallback :
    (∀ (content topic raw : String) (parse : String → Option PyVal),
        parse (stripFences (pyStrip raw)) = Option.none →
        generate_podcast_dialogue content topic (.ok raw) parse =
            .ok (fallbackDialogue content topic)
          ∧ pyLen (fallbackDialogue content topic) = .ok 6)
    ∧ (∀ (content topic msg : String) (parse : String → Option PyVal),
        generate_podcast_dialogue content topic (.error msg) parse = .error msg)
    ∧ (∀ (sources : List Source) (ctx : Context) (o : Oracles) (fs : FS) (msg : String),
        o.dialogueChat = .error msg →
        process sources ctx o fs = (catchAllRecord msg o.now, fs)) := by
  refine ⟨?_, ?_, ?_⟩
  · intro content topic raw parse h
    exact ⟨by simp [generate_podcast_dialogue, h], rfl⟩
  · intro content topic msg parse
    rfl
  · intro sources ctx o fs msg h
    simp [process, processBody, generate_podcast_dialogue, h]

/-- Counterexample to C2 as stated: a raising chat call makes
`_generate_podcast_dialogue` fail outward instead of returning the
fallback script — the call at line 193 sits outside the `try` block. -/
theorem C2_counterexample :
    generate_podcast_dialogue "some content" "some topic" (.error "boom")
      (fun _ => Option.none) = .error "boom" := rfl

/-- Witness for C2 (amended) at concrete inputs. -/
theorem C2_witness :
    (generate_podcast_dialogue "c" "t" (.ok "not json at all") (fun _ => Option.none) =
        .ok (fallbackDialogue "c" "t")
      ∧ pyLen (fallbackDialogue "c" "t") = .ok 6)
    ∧ generate_podcast_dialogue "c" "t" (.error "boom") (fun _ => Option.none) = .error "boom"
    ∧ process [] ⟨some "t"⟩ ⟨fun _ => Except.error "no title", Except.error "boom",
        fun _ => Option.none, Except.ok (), fun _ => Except.ok [1], Except.ok (),
        Option.none, "NOW", "TS"⟩ fsInit = (catchAllRecord "boom" "NOW", fsInit) :=
  ⟨C2_writeScript_fallback.1 "c" "t" "not json at all" (fun _ => Option.none) rfl,
   C2_writeScript_fallback.2.1 "c" "t" "boom" (fun _ => Option.none),
   C2_writeScript_fallback.2.2 [] ⟨some "t"⟩ _ fsInit "boom" rfl⟩

/-- C6 (amended): the post-processing strips a triple-backtick fence
and an optional leading `json` tag (case-insensitively) before parsing;
a parse failure yields the deterministic fallback script, and so does a
parsed scalar root (number, boolean or null), whose `len()` call in the
debug print at line 218 raises `TypeError` inside the same `try`; but a
parsed value supporting `len()` is returned verbatim, so a non-array
object root or array entries with missing keys do not trigger the
fallback. -/
theorem C6_postprocessing :
    (∀ (content topic raw : String) (parse : String → Option PyVal),
        parse (stripFences (pyStrip raw)) = Option.none →
        generate_podcast_dialogue content topic (.ok raw) parse =
          .ok (fallbackDialogue content topic))
    ∧ (∀ (content topic raw : String) (parse : String → Option PyVal) (v : PyVal) (n : Nat),
        parse (stripFences (pyStrip raw)) = some v →
        pyLen v = .ok n →
        generate_podcast_dialogue content topic (.ok raw) parse = .ok v)
    ∧ (∀ (content topic raw : String) (parse : String → Option PyVal) (v : PyVal) (e : String),
        parse (stripFences (pyStrip raw)) = some v →
        pyLen v = .error e →
        generate_podcast_dialogue content topic (.ok raw) parse =
          .ok (fallbackDialogue content topic))
    ∧ stripFences (pyStrip "```json\n[1]\n```") = "[1]"
    ∧ stripFences (pyStrip "```JSON\n[1]\n```") = "[1]"
    ∧ stripFences (pyStrip "```\n[1]\n```") = "[1]" := by
  refine ⟨?_, ?_, ?_, by decide, by decide, by decide⟩
  · intro content topic raw parse h
    simp [generate_podcast_dialogue, h]
  · intro content topic raw parse v n h hn
    simp [generate_podcast_dialogue, h, hn]
  · intro content topic raw parse v e h he
    simp [generate_podcast_dialogue, h, he]

/-- Counterexample to C6 as stated: a non-array JSON root (`{}`) and an
array whose entry misses every required key (`[{}]`) parse successfully,
survive the `len()` call at line 218, and are returned as-is — the
fallback script is not triggered for them. -/
theorem C6_counterexample :
    generate_podcast_dialogue "c" "t" (.ok "\x7b\x7d")
        (fun s => if s = "\x7b\x7d" then some (PyVal.dict []) else Option.none) =
      .ok (PyVal.dict [])
    ∧ PyVal.dict [] ≠ fallbackDialogue "c" "t"
    ∧ generate_podcast_dialogue "c" "t" (.ok "[\x7b\x7d]")
        (fun s => if s = "[\x7b\x7d]" then some (PyVal.list [PyVal.dict []]) else Option.none) =
      .ok (PyVal.list [PyVal.dict []])
    ∧ PyVal.list [PyVal.dict []] ≠ fallbackDialogue "c" "t" := by
  refine ⟨rfl, ?_, rfl, ?_⟩
  · intro h
    simp [fallbackDialogue] at h
  · intro h
    simp [fallbackDialogue] at h

/-- Witness for C6 (amended) at concrete inputs: unparseable text falls
back, a parsed empty array is returned verbatim, and a parsed number
root falls back through the failing `len()` call. -/
theorem C6_witness :
    generate_podcast_dialogue "c" "t" (.ok "definitely not json") (fun _ => Option.none) =
        .ok (fallbackDialogue "c" "t")
    ∧ generate_podcast_dialogue "c" "t" (.ok "[]")
        (fun s => if s = "[]" then some (PyVal.list []) else Option.none) =
      .ok (PyVal.list [])
    ∧ generate_podcast_dialogue "c" "t" (.ok "5")
        (fun s => if s = "5" then some (PyVal.num 5) else Option.none) =
      .ok (fallbackDialogue "c" "t") :=
  ⟨C6_postprocessing.1 "c" "t" "definitely not json" (fun _ => Option.none) rfl,
   C6_postprocessing.2.1 "c" "t" "[]"
     (fun s => if s = "[]" then some (PyVal.list []) else Option.none) (PyVal.list []) 0
     rfl rfl,
   C6_postprocessing.2.2.1 "c" "t" "5"
     (fun s => if s = "5" then some (PyVal.num 5) else Option.none) (PyVal.num 5)
     "TypeError: object has no len()" rfl rfl⟩

/-- C1: `process` returns a result record on every input — the whole
body sits inside one `try` — and any exception the body raises is
caught at the boundary and converted into a failure record carrying the
exception message and a diagnostic trace. -/
theorem C1_process_boundary (sources : List Source) (ctx : Context) (o : Oracles)
    (fs : FS) (e : String) (fs1 : FS)
    (h : processBody sources ctx o fs = (.error e, fs1)) :
    process sources ctx o fs = (catchAllRecord e o.now, fs1)
    ∧ recGet (catchAllRecord e o.now) "flow_type" = some (.str "podcast")
    ∧ recGet (catchAllRecord e o.now) "error" =
        some (.str ("Error in podcast generation: " ++ e))
    ∧ (∃ md, recGet (catchAllRecord e o.now) "metadata" = some (.dict md)
        ∧ md.lookup "error_details" = some (.str (tracebackOf e))) := by
  refine ⟨by simp [process, h], ?_, ?_, ⟨_, rfl, ?_⟩⟩
  · simp [recGet, catchAllRecord, List.lookup]
  · simp [recGet, catchAllRecord, List.lookup]
  · simp [List.lookup]

/-- Witness for C1: a concrete run whose dialogue chat call raises. -/
theorem C1_witness :
    process [] ⟨some "climate"⟩
        ⟨fun _ => Except.error "no title", Except.error "boom", fun _ => Option.none,
         Except.ok (), fun _ => Except.ok [1], Except.ok (), Option.none, "NOW", "TS"⟩
        fsInit =
      (catchAllRecord "boom" "NOW", fsInit) :=
  (C1_process_boundary [] ⟨some "climate"⟩
    ⟨fun _ => Except.error "no title", Except.error "boom", fun _ => Option.none,
     Except.ok (), fun _ => Except.ok [1], Except.ok (), Option.none, "NOW", "TS"⟩
    fsInit "boom" fsInit rfl).1

/-- C10: every record `process` returns — success, audio-failure and
catch-all alike — carries `flow_type = "podcast"`, a string under
`sources_found`, and a `metadata` dict with a `generated_at` entry. -/
theorem C10_record_invariant (sources : List Source) (ctx : Context) (o : Oracles)
    (fs : FS) :
    recGet (process sources ctx o fs).1 "flow_type" = some (.str "podcast")
    ∧ (∃ s, recGet (process sources ctx o fs).1 "sources_found" = some (.str s))
    ∧ (∃ md, recGet (process sources ctx o fs).1 "metadata" = some (.dict md)
        ∧ md.lookup "generated_at" = some (.str o.now)) := by
  cases hpb : processBody sources ctx o fs with
  | mk res fs1 =>
    cases res with
    | error e =>
      have hp : process sources ctx o fs = (catchAllRecord e o.now, fs1) := by
        simp [process, hpb]
      rw [hp]
      exact ⟨rfl, ⟨"Failed to generate podcast", rfl⟩, ⟨_, rfl, rfl⟩⟩
    | ok r =>
      have hp : process sources ctx o fs = (r, fs1) := by
        simp [process, hpb]
      rw [hp]
      obtain ⟨d, T, n, _, _, _, hr | ⟨p, hr⟩⟩ := processBody_ok_shape hpb
      · subst hr
        exact ⟨rfl, ⟨T, rfl⟩, ⟨_, rfl, rfl⟩⟩
      · subst hr
        exact ⟨rfl, ⟨T, rfl⟩, ⟨_, rfl, rfl⟩⟩

/-- C9 (amended): when the body of `process` completes, the returned
record — success or audio-failure — carries the transcript of the
generated dialogue under `sources_found`; but when an exception reaches
the catch-all boundary, the failure record always carries the fixed
placeholder `"Failed to generate podcast"`, even if a dialogue had been
produced. -/
theorem C9_failure_transcript :
    (∀ (sources : List Source) (ctx : Context) (o : Oracles) (fs : FS)
       (r : PyVal) (fs1 : FS),
       processBody sources ctx o fs = (.ok r, fs1) →
       ∃ d T, generate_podcast_dialogue (concatContent sources)
           (ctx.topic.getD "Educational Topic") o.dialogueChat o.jsonParse = .ok d
         ∧ format_dialogue_as_text d = .ok T
         ∧ recGet r "sources_found" = some (.str T))
    ∧ (∀ (sources : List Source) (ctx : Context) (o : Oracles) (fs : FS)
       (e : String) (fs1 : FS),
       processBody sources ctx o fs = (.error e, fs1) →
       recGet (process sources ctx o fs).1 "sources_found" =
         some (.str "Failed to generate podcast")) := by
  constructor
  · intro sources ctx o fs r fs1 h
    obtain ⟨d, T, n, hd, hf, _, hr | ⟨p, hr⟩⟩ := processBody_ok_shape h
    · exact ⟨d, T, hd, hf, by subst hr; simp [recGet, audioFailRecord, List.lookup]⟩
    · exact ⟨d, T, hd, hf, by subst hr; simp [recGet, successRecord, List.lookup]⟩
  · intro sources ctx o fs e fs1 h
    have hp : process sources ctx o fs = (catchAllRecord e o.now, fs1) := by
      simp [process, h]
    rw [hp]
    simp [recGet, catchAllRecord, List.lookup]

/-- Counterexample to C9 as stated: a run in which the 6-line fallback
dialogue was produced, the transcript was perfectly reconstructible
from it, yet the failure record (reached because the directory-creation
call raised) carries only the placeholder text instead. -/
theorem C9_counterexample :
    process [] ⟨some "climate"⟩
        ⟨fun _ => Except.error "no title", Except.ok "not json at all",
         fun _ => Option.none, Except.error "disk full", fun _ => Except.ok [1],
         Except.ok (), Option.none, "NOW", "TS"⟩ fsInit =
      (catchAllRecord "disk full" "NOW", fsInit)
    ∧ recGet (catchAllRecord "disk full" "NOW") "sources_found" =
        some (.str "Failed to generate podcast")
    ∧ generate_podcast_dialogue "" "climate" (.ok "not json at all")
        (fun _ => Option.none) = .ok (fallbackDialogue "" "climate")
    ∧ pyLen (fallbackDialogue "" "climate") = .ok 6
    ∧ (∃ T, format_dialogue_as_text (fallbackDialogue "" "climate") = .ok T
        ∧ T ≠ "Failed to generate podcast") :=
  ⟨rfl, rfl, rfl, rfl, ⟨_, rfl, by decide⟩⟩

/-- Witness for C9 (amended), applying both parts at concrete runs. -/
theorem C9_witness :
    (∃ d T, generate_podcast_dialogue (concatContent [])
        ((⟨some "t"⟩ : Context).topic.getD "Educational Topic")
        (Oracles.dialogueChat ⟨fun _ => Except.error "no title", Except.ok "not json at all",
          fun _ => some (.list []), Except.ok (), fun _ => Except.ok [1],
          Except.ok (), Option.none, "NOW", "TS"⟩)
        (Oracles.jsonParse ⟨fun _ => Except.error "no title", Except.ok "not json at all",
          fun _ => some (.list []), Except.ok (), fun _ => Except.ok [1],
          Except.ok (), Option.none, "NOW", "TS"⟩) = .ok d
      ∧ format_dialogue_as_text d = .ok T
      ∧ recGet (audioFailRecord (transcriptOf []) 0 "NOW") "sources_found" = some (.str T))
    ∧ recGet (process [] ⟨some "t"⟩
        ⟨fun _ => Except.error "no title", Except.error "boom", fun _ => Option.none,
         Except.ok (), fun _ => Except.ok [1], Except.ok (), Option.none, "NOW", "TS"⟩
        fsInit).1 "sources_found" = some (.str "Failed to generate podcast") :=
  ⟨C9_failure_transcript.1 [] ⟨some "t"⟩
      ⟨fun _ => Except.error "no title", Except.ok "not json at all",
       fun _ => some (.list []), Except.ok (), fun _ => Except.ok [1],
       Except.ok (), Option.none, "NOW", "TS"⟩ fsInit
      (audioFailRecord (transcriptOf []) 0 "NOW") ⟨[], true, 0, false⟩ rfl,
   C9_failure_transcript.2 [] ⟨some "t"⟩
      ⟨fun _ => Except.error "no title", Except.error "boom", fun _ => Option.none,
       Except.ok (), fun _ => Except.ok [1], Except.ok (), Option.none, "NOW", "TS"⟩
      fsInit "boom" fsInit rfl⟩

/-- C4: when every synthesis call fails, the segment sequence is empty
(no segment file is ever written), FFmpeg is never invoked, no output
artifact is created, and `process` returns the audio-failure record
whose transcript contains every dialogue line and which carries no
`audio_output` key. -/
theorem C4_all_synthesis_failed (sources : List Source) (ctx : Context) (o : Oracles)
    (fs : FS) (raw : String) (lines : List PyVal)
    (hchat : o.dialogueChat = .ok raw)
    (hparse : o.jsonParse (stripFences (pyStrip raw)) = some (.list lines))
    (hwf : ∀ l ∈ lines, isWfLine l = true)
    (hfail : ∀ j, synthOk o.synth j = false)
    (hmk : o.mkdirs = .ok ()) :
    process sources ctx o fs =
      (audioFailRecord (transcriptOf lines) lines.length o.now,
       ⟨[], true, fs.ffmpegCalls, fs.outputCreated⟩)
    ∧ (process sources ctx o fs).2.ffmpegCalls = fs.ffmpegCalls
    ∧ (process sources ctx o fs).2.outputCreated = fs.outputCreated
    ∧ (process sources ctx o fs).2.tempFiles = []
    ∧ segNames o.synth lines.length = []
    ∧ recGet (audioFailRecord (transcriptOf lines) lines.length o.now) "audio_output" =
        Option.none
    ∧ recGet (audioFailRecord (transcriptOf lines) lines.length o.now) "error" =
        some (.str "Failed to generate audio")
    ∧ recGet (audioFailRecord (transcriptOf lines) lines.length o.now) "sources_found" =
        some (.str (transcriptOf lines))
    ∧ ∀ l ∈ lines, containsStr (transcriptOf lines) (renderOf l) := by
  have hb := @processBody_allFail sources ctx o fs raw lines hchat hparse hwf hfail hmk
  have hp : process sources ctx o fs =
      (audioFailRecord (transcriptOf lines) lines.length o.now,
       ⟨[], true, fs.ffmpegCalls, fs.outputCreated⟩) := by
    simp [process, hb]
  have hseg : segNames o.synth lines.length = [] := by
    simp only [segNames, List.map_eq_nil_iff, List.filter_eq_nil_iff]
    intro a _
    simp [hfail a]
  exact ⟨hp, by rw [hp], by rw [hp], by rw [hp], hseg, rfl, rfl, rfl,
         fun l hl => contains_transcript hl⟩

/-- Witness for C4 at a concrete one-line script whose only synthesis
call fails. -/
theorem C4_witness :
    process [] ⟨some "t"⟩
        ⟨fun _ => Except.error "no title", Except.ok "not json at all",
         fun _ => some (.list [mkLine "Host" "hi" "v"]), Except.ok (),
         fun _ => Except.error "down", Except.ok (), Option.none, "NOW", "TS"⟩
        fsInit =
      (audioFailRecord (transcriptOf [mkLine "Host" "hi" "v"])
        [mkLine "Host" "hi" "v"].length "NOW", ⟨[], true, 0, false⟩)
    ∧ segNames (fun _ => Except.error "down") [mkLine "Host" "hi" "v"].length = []
    ∧ recGet (audioFailRecord (transcriptOf [mkLine "Host" "hi" "v"])
        [mkLine "Host" "hi" "v"].length "NOW") "audio_output" = Option.none
    ∧ ∀ l ∈ [mkLine "Host" "hi" "v"],
        containsStr (transcriptOf [mkLine "Host" "hi" "v"]) (renderOf l) :=
  have h := C4_all_synthesis_failed [] ⟨some "t"⟩
    ⟨fun _ => Except.error "no title", Except.ok "not json at all",
     fun _ => some (.list [mkLine "Host" "hi" "v"]), Except.ok (),
     fun _ => Except.error "down", Except.ok (), Option.none, "NOW", "TS"⟩
    fsInit "not json at all" [mkLine "Host" "hi" "v"]
    rfl rfl (by decide) (fun j => rfl) rfl
  ⟨h.1, h.2.2.2.2.1, h.2.2.2.2.2.1, h.2.2.2.2.2.2.2.2⟩

/-- C3 (amended): the temporary per-line files, the manifest and the
temporary directory are all removed only on the success path of
`_generate_audio`; the FFmpeg-failure path returns leaving every
segment file, the manifest and the directory in place, and the
zero-segments path leaves the (empty) temporary directory in place. -/
theorem C3_cleanup_paths :
    (∀ (lines : List PyVal) (topic : String) (o : Oracles) (fs : FS),
       (∀ l ∈ lines, isWfLine l = true) → o.mkdirs = .ok () → o.ffmpeg = .ok () →
       segNames o.synth lines.length ≠ [] →
       generateAudioStep (.list lines) topic o fs =
         .ok (outputFileName topic o.timestamp, ⟨[], false, fs.ffmpegCalls + 1, true⟩))
    ∧ (∀ (lines : List PyVal) (topic : String) (o : Oracles) (fs : FS) (e : String),
       (∀ l ∈ lines, isWfLine l = true) → o.mkdirs = .ok () → o.ffmpeg = .error e →
       segNames o.synth lines.length ≠ [] →
       generateAudioStep (.list lines) topic o fs =
         .ok ("", ⟨segNames o.synth lines.length ++ [manifestName], true,
                   fs.ffmpegCalls + 1, fs.outputCreated⟩))
    ∧ (∀ (lines : List PyVal) (topic : String) (o : Oracles) (fs : FS),
       (∀ l ∈ lines, isWfLine l = true) → o.mkdirs = .ok () →
       segNames o.synth lines.length = [] →
       generateAudioStep (.list lines) topic o fs =
         .ok ("", ⟨[], true, fs.ffmpegCalls, fs.outputCreated⟩)) := by
  refine ⟨?_, ?_, ?_⟩
  · intro lines topic o fs hwf hmk hff hne
    rw [generateAudio_wf lines topic o fs hwf hmk, if_neg hne, hff]
  · intro lines topic o fs e hwf hmk hff hne
    rw [generateAudio_wf lines topic o fs hwf hmk, if_neg hne, hff]
  · intro lines topic o fs hwf hmk hz
    rw [generateAudio_wf lines topic o fs hwf hmk, if_pos hz]

/-- Counterexample to C3 as stated: a concrete run whose FFmpeg call
fails leaves the segment file, the manifest and the temporary directory
behind — cleanup happens only inside the success branch (lines
318-323), not on the `CalledProcessError` path (line 327). -/
theorem C3_counterexample :
    generateAudioStep (.list [mkLine "Host" "hi" "v"]) "t"
        ⟨fun _ => Except.error "no title", Except.ok "x", fun _ => Option.none,
         Except.ok (), fun _ => Except.ok [1], Except.error "CalledProcessError",
         Option.none, "NOW", "TS"⟩ fsInit =
      .ok ("", ⟨[segFileName 0, manifestName], true, 1, false⟩)
    ∧ ([segFileName 0, manifestName] : List String) ≠ []
    ∧ (⟨[segFileName 0, manifestName], true, 1, false⟩ : FS).tempDirExists = true :=
  ⟨rfl, by simp, rfl⟩

/-- Witness for C3 (amended): concrete success-path cleanup, concrete
FFmpeg-failure leak, and concrete zero-segments leak. -/
theorem C3_witness :
    generateAudioStep (.list [mkLine "Host" "hi" "v"]) "my topic" baseOracles fsInit =
      .ok (outputFileName "my topic" "TS", ⟨[], false, 1, true⟩)
    ∧ generateAudioStep (.list [mkLine "Host" "hi" "v"]) "t"
        ⟨fun _ => Except.error "no title", Except.ok "x", fun _ => Option.none,
         Except.ok (), fun _ => Except.ok [1], Except.error "boom",
         Option.none, "NOW", "TS"⟩ fsInit =
      .ok ("", ⟨segNames (fun _ => Except.ok [1]) 1 ++ [manifestName], true, 1, false⟩)
    ∧ generateAudioStep (.list [mkLine "Host" "hi" "v"]) "t"
        ⟨fun _ => Except.error "no title", Except.ok "x", fun _ => Option.none,
         Except.ok (), fun _ => Except.error "down", Except.ok (),
         Option.none, "NOW", "TS"⟩ fsInit =
      .ok ("", ⟨[], true, 0, false⟩) :=
  ⟨C3_cleanup_paths.1 [mkLine "Host" "hi" "v"] "my topic" baseOracles fsInit
     (by decide) rfl rfl (by decide),
   C3_cleanup_paths.2.1 [mkLine "Host" "hi" "v"] "t"
     ⟨fun _ => Except.error "no title", Except.ok "x", fun _ => Option.none,
      Except.ok (), fun _ => Except.ok [1], Except.error "boom",
      Option.none, "NOW", "TS"⟩ fsInit "boom" (by decide) rfl rfl (by decide),
   C3_cleanup_paths.2.2 [mkLine "Host" "hi" "v"] "t"
     ⟨fun _ => Except.error "no title", Except.ok "x", fun _ => Option.none,
      Except.ok (), fun _ => Except.error "down", Except.ok (),
      Option.none, "NOW", "TS"⟩ fsInit (by decide) rfl (by decide)⟩

/-- C7: the synthesis loop processes lines in order, skips each line
whose synthesis call fails — without retrying and without raising — and
names each successful segment file by the zero-padded 3-digit position
of its line; when exactly one line fails the result has length
`scriptLength - 1` and preserves the relative order of the remaining
positions. -/
theorem C7_per_line_skip (lines : List PyVal) (synth : Nat → Except String (List Nat))
    (fs : FS) (k : Nat)
    (hwf : ∀ l ∈ lines, isWfLine l = true)
    (hk : k < lines.length)
    (hone : ∀ j < lines.length, synthOk synth j = (j != k)) :
    synthLoop synth lines 0 [] fs =
      (.ok (((List.range lines.length).filter (fun j => j != k)).map segFileName),
       { fs with tempFiles := fs.tempFiles ++
          ((List.range lines.length).filter (fun j => j != k)).map segFileName })
    ∧ (((List.range lines.length).filter (fun j => j != k)).map segFileName).length
        = lines.length - 1 := by
  have h0 := synthLoop_wf synth lines 0 [] fs hwf
  have hcg : (List.range' 0 lines.length).filter (synthOk synth) =
      (List.range lines.length).filter (fun j => j != k) := by
    rw [← List.range_eq_range']
    exact List.filter_congr (fun x hx => hone x (List.mem_range.mp hx))
  constructor
  · rw [h0, hcg]
    simp
  · have he : (List.range lines.length).filter (fun j => j != k) =
        (List.range lines.length).erase k :=
      ((List.nodup_range lines.length).erase_eq_filter k).symm
    rw [List.length_map, he, List.length_erase_of_mem (List.mem_range.mpr hk),
        List.length_range]

/-- Witness for C7: a 2-line script whose first synthesis call fails,
yielding exactly the second segment file. -/
theorem C7_witness :
    synthLoop (fun j => if j = 0 then Except.error "down" else Except.ok [1])
        [mkLine "Host" "a" "v", mkLine "Guest" "b" "w"] 0 [] fsInit =
      (.ok (((List.range 2).filter (fun j => j != 0)).map segFileName),
       { fsInit with tempFiles := fsInit.tempFiles ++
          ((List.range 2).filter (fun j => j != 0)).map segFileName })
    ∧ (((List.range 2).filter (fun j => j != 0)).map segFileName).length = 2 - 1 :=
  C7_per_line_skip [mkLine "Host" "a" "v", mkLine "Guest" "b" "w"]
    (fun j => if j = 0 then Except.error "down" else Except.ok [1]) fsInit 0
    (by decide) (by decide) (by decide)

/-- The title priority chain as the spec words it (§4.1): an explicit
ordered list of resolver candidates — (a) first source with a non-empty
title, (b) first title-like trimmed line among the first 5 lines of
content, (c) the trimmed chat response over the first 1000 characters
of content when that call succeeds and yields non-empty text — with the
caller topic (default `"Educational Topic"`) as last resort.  This is
the comparison definition for the refinement claim C8, written from the
spec text rather than from the source. -/
def firstTruthy : List (Option String) → Option String
  | [] => Option.none
  | some t :: _ => some t
  | Option.none :: cs => firstTruthy cs

/-- Spec-side title chain (see `firstTruthy`). -/
def specTitleChain (sources : List Source) (ctx : Context)
    (titleChat : String → Except String String) : String :=
  let content := concatContent sources
  (firstTruthy
    [firstSourceTitle sources,
     ((strSplitNl content).take 5).map pyStrip |>.find? isTitleLine,
     match titleChat (strTake content 1000) with
     | .ok resp => if pyStrip resp = "" then Option.none else some (pyStrip resp)
     | .error _ => Option.none]).getD (ctx.topic.getD "Educational Topic")

/-- C8: the `document_title` computation of `process` (source title,
else heuristic scan of the first 5 lines, else trimmed model response
over the first 1000 characters of content, else the caller topic, a
model-call failure falling through silently) equals the spec's
first-match-wins priority chain. -/
theorem C8_title_priority (sources : List Source) (ctx : Context)
    (titleChat : String → Except String String) :
    resolveTitle sources (concatContent sources) ctx titleChat =
      specTitleChain sources ctx titleChat := by
  simp only [resolveTitle, specTitleChain, extract_title_from_content]
  cases hft : firstSourceTitle sources with
  | some t => simp [firstTruthy]
  | none =>
    cases hfind : ((strSplitNl (concatContent sources)).take 5).map pyStrip
        |>.find? isTitleLine with
    | some line =>
      have h3 : isTitleLine line = true := List.find?_some hfind
      have hne : ¬ line = "" := by
        intro h
        subst h
        simp [isTitleLine] at h3
      simp [hfind, firstTruthy, hne]
    | none =>
      cases hc : titleChat (strTake (concatContent sources) 1000) with
      | ok resp =>
        by_cases hr : pyStrip resp = ""
        · simp [hfind, hc, firstTruthy, hr]
        · simp [hfind, hc, firstTruthy, hr]
      | error e => simp [hfind, hc, firstTruthy]

end EduMuse
